import Mathlib

/-!
Verification of the Debezium demo data generator (`app/main.py`, `app/logger.py`).

The Python program is embedded shallowly:

* money values (`NUMERIC(10,2)`) are rationals, `round(x, 2)` is `round2`;
* every call to the random library is represented by an explicit draw
  passed in as data, together with a validity predicate stating exactly
  the bounds the library guarantees (`random.randint(a, b)` gives an
  integer in `[a, b]`, `random.uniform(a, b)` a value in `[a, b]`,
  `random.choice(xs)` an index below `xs.length`);
* the PostgreSQL store is a `DB` record: the created tables, the replica
  identity settings, and the two row lists with their SERIAL counters;
* the query `SELECT id FROM products ORDER BY RANDOM() LIMIT n` is an
  oracle permutation of the stored ids, truncated to `n`;
* the outcome of a connection attempt (success, `psycopg2.OperationalError`,
  any other exception) is an oracle `ℕ → AttemptResult`.
-/

namespace DebeziumDemo

/-- Python `round(x, 2)` on a rational: round to the nearest multiple of 1/100.
(Python rounds floats half-to-even; on the values of interest the tie case is
irrelevant to every stated bound, and `round` here is half-up.) -/
def round2 (q : ℚ) : ℚ := (round (q * 100) : ℤ) / 100

/-- The map `round2` is monotone, because `round` is. -/
theorem round2_mono {x y : ℚ} (h : x ≤ y) : round2 x ≤ round2 y := by
  unfold round2
  have hr : round (x * 100) ≤ round (y * 100) := by
    rw [round_eq, round_eq]
    exact Int.floor_le_floor (by linarith)
  exact div_le_div_of_nonneg_right (by exact_mod_cast hr) (by norm_num)

/-- The map `round2` fixes every value that already has two decimal digits. -/
theorem round2_eq_self_of_den (n : ℤ) : round2 ((n : ℚ) / 100) = (n : ℚ) / 100 := by
  unfold round2
  rw [div_mul_cancel₀ _ (by norm_num : (100 : ℚ) ≠ 0), round_intCast]

/-- If `5.99 ≤ x ≤ 999.99` then `round2 x` stays in the same interval. -/
theorem round2_bounds {x : ℚ} (h1 : 599/100 ≤ x) (h2 : x ≤ 99999/100) :
    599/100 ≤ round2 x ∧ round2 x ≤ 99999/100 := by
  have lo : round2 ((599 : ℤ) / 100 : ℚ) ≤ round2 x := by
    apply round2_mono; push_cast; linarith
  have hi : round2 x ≤ round2 ((99999 : ℤ) / 100 : ℚ) := by
    apply round2_mono; push_cast; linarith
  rw [round2_eq_self_of_den] at lo hi
  constructor
  · exact le_trans (by push_cast; norm_num) lo
  · exact le_trans hi (by push_cast; norm_num)

/-! ## Record Factory (`generate_product`, `generate_sale`) -/

/-- The fixed category enumeration of `generate_product`. -/
def categories : List String :=
  ["Electronics", "Clothing", "Food", "Books", "Home", "Sports", "Toys"]

/-- One catalog record as built by `generate_product` (the `created_at`
column is server-assigned at insert time and not part of the record). -/
structure Product where
  name : String
  category : String
  price : ℚ
  stock_quantity : ℕ
  deriving Repr, DecidableEq

/-- The random draws consumed by one call of `generate_product`:
`fake.catch_phrase()`, the index picked by `random.choice(categories)`,
the raw value of `random.uniform(5.99, 999.99)`, and
`random.randint(0, 500)`. -/
structure ProductDraws where
  name : String
  categoryIdx : ℕ
  priceRaw : ℚ
  stock : ℕ
  deriving Repr, DecidableEq

/-- What the random library guarantees about the draws of `generate_product`. -/
def ProductDraws.Valid (d : ProductDraws) : Prop :=
  d.categoryIdx < categories.length ∧
  599/100 ≤ d.priceRaw ∧ d.priceRaw ≤ 99999/100 ∧
  d.stock ≤ 500

instance (d : ProductDraws) : Decidable d.Valid := by
  unfold ProductDraws.Valid; infer_instance

/-- Function `generate_product` from `app/main.py`. -/
def generate_product (d : ProductDraws) : Product :=
  { name := d.name
    category := categories.getD d.categoryIdx ""
    price := round2 d.priceRaw
    stock_quantity := d.stock }

/-- One transaction record as built by `generate_sale` (the `sale_date`
column is server-assigned at insert time). -/
structure Sale where
  product_id : Option ℕ
  customer_name : String
  customer_email : String
  quantity : ℕ
  total_amount : ℚ
  deriving Repr, DecidableEq

/-- The random draws consumed by one call of `generate_sale`:
`random.randint(1, 10)`, the raw `random.uniform(5.99, 999.99)`, the index
picked by `random.choice(product_ids)` (meaningful only when the pool is
non-empty), and the two faker strings. -/
structure SaleDraws where
  quantity : ℕ
  priceRaw : ℚ
  choiceIdx : ℕ
  customer_name : String
  customer_email : String
  deriving Repr, DecidableEq

/-- What the random library guarantees about the draws of `generate_sale`,
relative to the candidate pool passed in. -/
def SaleDraws.Valid (pool : List ℕ) (d : SaleDraws) : Prop :=
  1 ≤ d.quantity ∧ d.quantity ≤ 10 ∧
  599/100 ≤ d.priceRaw ∧ d.priceRaw ≤ 99999/100 ∧
  (pool ≠ [] → d.choiceIdx < pool.length)

instance (pool : List ℕ) (d : SaleDraws) : Decidable (d.Valid pool) := by
  unfold SaleDraws.Valid; infer_instance

/-- Function `generate_sale` from `app/main.py`.  `random.choice(product_ids) if
product_ids else None` becomes an indexed pick guarded by emptiness. -/
def generate_sale (product_ids : List ℕ) (d : SaleDraws) : Sale :=
  let quantity := d.quantity
  let price := round2 d.priceRaw
  { product_id := if product_ids = [] then none
                  else some (product_ids.getD d.choiceIdx 0)
    customer_name := d.customer_name
    customer_email := d.customer_email
    quantity := quantity
    total_amount := round2 (price * quantity) }

/-! ## The store -/

/-- A stored row of the `products` table (`created_at` omitted: it is
server-assigned and read by no code in the repository). -/
structure ProductRow where
  id : ℕ
  name : String
  category : String
  price : ℚ
  stock_quantity : ℕ
  deriving Repr, DecidableEq

/-- A stored row of the `sales` table (`sale_date` omitted likewise). -/
structure SaleRow where
  id : ℕ
  product_id : Option ℕ
  customer_name : String
  customer_email : String
  quantity : ℕ
  total_amount : ℚ
  deriving Repr, DecidableEq

/-- The PostgreSQL store: which tables exist, which have
`REPLICA IDENTITY FULL`, the rows of both tables in insertion order, and
the next value of each SERIAL id sequence. -/
structure DB where
  tables : List String
  replicaFull : List String
  products : List ProductRow
  nextProductId : ℕ
  sales : List SaleRow
  nextSaleId : ℕ
  deriving Repr, DecidableEq

/-- The empty store: no tables, SERIAL sequences at 1. -/
def emptyDB : DB :=
  { tables := [], replicaFull := [], products := [], nextProductId := 1,
    sales := [], nextSaleId := 1 }

/-- Statement `CREATE TABLE IF NOT EXISTS name (...)`: adds the table when absent,
does nothing (and raises no error) when present. -/
def createTableIfNotExists (st : DB) (name : String) : DB :=
  if name ∈ st.tables then st else { st with tables := st.tables ++ [name] }

/-- Statement `ALTER TABLE name REPLICA IDENTITY FULL`: records the full-row-image
setting; re-running it changes nothing. -/
def setReplicaFull (st : DB) (name : String) : DB :=
  if name ∈ st.replicaFull then st
  else { st with replicaFull := st.replicaFull ++ [name] }

/-- Function `create_tables` from `app/main.py`: create both tables if absent, set
replica identity FULL on both, commit. -/
def create_tables (st : DB) : DB :=
  let st1 := createTableIfNotExists st "products"
  let st2 := createTableIfNotExists st1 "sales"
  let st3 := setReplicaFull st2 "products"
  setReplicaFull st3 "sales"

/-! ## Batch Writer (`insert_products`, `insert_sales`) -/

/-- Effect of the multi-row `INSERT INTO products ... RETURNING id`: each
row receives the next SERIAL id, rows are appended in batch order, and the
RETURNING clause lists the new ids in insertion order. -/
def insertProductRows (st : DB) : List Product → DB × List ℕ
  | [] => (st, [])
  | p :: ps =>
    let row : ProductRow :=
      { id := st.nextProductId, name := p.name, category := p.category,
        price := p.price, stock_quantity := p.stock_quantity }
    let st1 := { st with products := st.products ++ [row],
                         nextProductId := st.nextProductId + 1 }
    let rest := insertProductRows st1 ps
    (rest.1, st.nextProductId :: rest.2)

/-- Effect of the multi-row `INSERT INTO sales ... RETURNING id`. -/
def insertSaleRows (st : DB) : List Sale → DB × List ℕ
  | [] => (st, [])
  | s :: ss =>
    let row : SaleRow :=
      { id := st.nextSaleId, product_id := s.product_id,
        customer_name := s.customer_name, customer_email := s.customer_email,
        quantity := s.quantity, total_amount := s.total_amount }
    let st1 := { st with sales := st.sales ++ [row],
                         nextSaleId := st.nextSaleId + 1 }
    let rest := insertSaleRows st1 ss
    (rest.1, st.nextSaleId :: rest.2)

/-- Function `insert_products` from `app/main.py`: generate `count` products (the
draws list carries one entry per generated record, so `count =
draws.length`), insert them in one statement, fetch the returned ids,
commit, and return the ids. -/
def insert_products (st : DB) (draws : List ProductDraws) : DB × List ℕ :=
  insertProductRows st (draws.map generate_product)

/-- Function `insert_sales` from `app/main.py`: generate `count` sales against the
candidate pool, insert them in one statement, fetch the returned ids into
the local `inserted_ids`, commit, log — and fall off the end of the
function, so the Python value of the call is `None`.  The second component
is that return value. -/
def insert_sales (st : DB) (product_ids : List ℕ) (draws : List SaleDraws) :
    DB × Option (List ℕ) :=
  let res := insertSaleRows st (draws.map (generate_sale product_ids))
  (res.1, none)

/-- Function `get_random_product_ids` from `app/main.py`:
`SELECT id FROM products ORDER BY RANDOM() LIMIT limit`.  The random order
chosen by the store is the oracle `perm`, a permutation of the stored
product ids; the query returns its first `limit` elements. -/
def get_random_product_ids (st : DB) (perm : List ℕ) (limit : ℕ) : List ℕ :=
  let _ := st
  perm.take limit

/-- Validity of the ordering oracle: the store enumerates exactly the ids
present in `products`, in some order. -/
def PermValid (st : DB) (perm : List ℕ) : Prop :=
  perm.Perm (st.products.map (fun r => r.id))

/-! ## Connection Manager (`get_db_connection`) -/

/-- What one `psycopg2.connect(...)` call does: succeed, raise
`psycopg2.OperationalError`, or raise some other exception. -/
inductive AttemptResult where
  | ok
  | opError
  | otherError
  deriving Repr, DecidableEq

/-- How `get_db_connection` ends: `connected k` returns a session created
on 1-based attempt `k`; `exhausted` raises
`Exception("Failed to connect after 5 attempts")`; `propagated k` lets an
exception other than `OperationalError` escape from attempt `k`. -/
inductive ConnOutcome where
  | connected (attempt : ℕ)
  | exhausted
  | propagated (attempt : ℕ)
  deriving Repr, DecidableEq

/-- Observable trace of `get_db_connection`: how many `connect` calls were
made, how many `logger.error` failure lines were emitted, the `time.sleep`
durations in order, whether `logger.critical` fired, and the outcome. -/
structure ConnTrace where
  attemptsMade : ℕ
  failuresLogged : ℕ
  sleeps : List ℕ
  criticalLogged : Bool
  outcome : ConnOutcome
  deriving Repr, DecidableEq

/-- Constant `max_retries` in `get_db_connection`. -/
def max_retries : ℕ := 5

/-- Constant `retry_delay` in `get_db_connection` (seconds). -/
def retry_delay : ℕ := 2

/-- The `for attempt in range(max_retries)` body of `get_db_connection`,
from 0-based attempt `attempt` with `fuel` iterations left.  On success the
connection is returned; only `psycopg2.OperationalError` is caught: it is
logged, then either the loop sleeps `retry_delay` and retries
(`attempt < max_retries - 1`) or logs critical and raises; any other
exception escapes the loop at once. -/
def connectAux (env : ℕ → AttemptResult) : ℕ → ℕ → ConnTrace
  | _, 0 =>
    { attemptsMade := 0, failuresLogged := 0, sleeps := [],
      criticalLogged := false, outcome := .exhausted }
  | attempt, fuel + 1 =>
    match env attempt with
    | .ok =>
      { attemptsMade := 1, failuresLogged := 0, sleeps := [],
        criticalLogged := false, outcome := .connected (attempt + 1) }
    | .otherError =>
      { attemptsMade := 1, failuresLogged := 0, sleeps := [],
        criticalLogged := false, outcome := .propagated (attempt + 1) }
    | .opError =>
      if attempt < max_retries - 1 then
        let rest := connectAux env (attempt + 1) fuel
        { attemptsMade := rest.attemptsMade + 1,
          failuresLogged := rest.failuresLogged + 1,
          sleeps := retry_delay :: rest.sleeps,
          criticalLogged := rest.criticalLogged,
          outcome := rest.outcome }
      else
        { attemptsMade := 1, failuresLogged := 1, sleeps := [],
          criticalLogged := true, outcome := .exhausted }

/-- Function `get_db_connection` from `app/main.py`, run against the oracle `env`
giving the result of each attempt. -/
def get_db_connection (env : ℕ → AttemptResult) : ConnTrace :=
  connectAux env 0 max_retries

/-! ## Generation Loop (`main`) -/

/-- Orchestrator state inside `main`: the store reached so far, the ID
Pool `product_ids`, and the cumulative counters. -/
structure LoopState where
  db : DB
  product_ids : List ℕ
  total_products : ℕ
  total_sales : ℕ
  iteration : ℕ
  deriving Repr, DecidableEq

/-- The random draws consumed by one iteration of the `while True` loop:
the product batch (`random.randint(1, 2)` products with their draws), the
ordering oracle for the pool-refresh query, and the sale batch. -/
structure IterDraws where
  productDraws : List ProductDraws
  poolPerm : List ℕ
  saleDraws : List SaleDraws
  deriving Repr, DecidableEq

/-- Store state after the product insert of the iteration. -/
def midDB (st : LoopState) (d : IterDraws) : DB :=
  (insert_products st.db d.productDraws).1

/-- Ids returned by the product insert of the iteration. -/
def newIds (st : LoopState) (d : IterDraws) : List ℕ :=
  (insert_products st.db d.productDraws).2

/-- The ID Pool immediately after the refresh check of an iteration:
`product_ids.extend(new_product_ids)`, then, if its size exceeds 100,
replacement by `get_random_product_ids(conn, limit=100)`. -/
def poolAfterRefresh (st : LoopState) (d : IterDraws) : List ℕ :=
  let pool1 := st.product_ids ++ newIds st d
  if pool1.length > 100 then get_random_product_ids (midDB st d) d.poolPerm 100
  else pool1

/-- One full iteration of the steady-state loop: insert 1-2 products and
extend the pool, refresh the pool when oversized, insert 1-2 sales against
the pool, bump the counters (the periodic progress log and the 1s sleep
change no state). -/
def loopIter (st : LoopState) (d : IterDraws) : LoopState :=
  { db := (insert_sales (midDB st d) (poolAfterRefresh st d) d.saleDraws).1,
    product_ids := poolAfterRefresh st d,
    total_products := st.total_products + d.productDraws.length,
    total_sales := st.total_sales + d.saleDraws.length,
    iteration := st.iteration + 1 }

/-- Runs `N` completed steady-state iterations. -/
def runLoop (st : LoopState) (ds : List IterDraws) : LoopState :=
  ds.foldl loopIter st

/-- What the random library and the store guarantee about the
draws of one iteration, relative to the state it runs in: batch sizes from
`random.randint(1, 2)`, per-record draw validity, the oracle of
the refresh query a permutation of the ids stored when the query runs, and the sale
draws valid against the pool the sales are generated from. -/
def IterDraws.Valid (st : LoopState) (d : IterDraws) : Prop :=
  1 ≤ d.productDraws.length ∧ d.productDraws.length ≤ 2 ∧
  (∀ p ∈ d.productDraws, p.Valid) ∧
  PermValid (midDB st d) d.poolPerm ∧
  1 ≤ d.saleDraws.length ∧ d.saleDraws.length ≤ 2 ∧
  (∀ s ∈ d.saleDraws, s.Valid (poolAfterRefresh st d))

/-- Validity of a whole run, where the draws of each iteration are judged
in the state that iteration starts from. -/
def ValidRun : LoopState → List IterDraws → Prop
  | _, [] => True
  | st, d :: ds => d.Valid st ∧ ValidRun (loopIter st d) ds

/-- State of `main` before the loop, against an empty store: connect (elided —
the store is available), `create_tables`, seed 20 products, initialize the
pool and counters.  `seedDraws` carries the 20 seed product draws. -/
def afterSeed (seedDraws : List ProductDraws) : LoopState :=
  let db0 := create_tables emptyDB
  let seeded := insert_products db0 seedDraws
  { db := seeded.1, product_ids := seeded.2,
    total_products := seeded.2.length, total_sales := 0, iteration := 0 }

/-! ## Shutdown (`main`: `except`/`finally`) -/

/-- How the `try` block of `main` stops: `KeyboardInterrupt` from the
user, or any other exception from the loop body. -/
inductive LoopExit where
  | interrupted
  | failed
  deriving Repr, DecidableEq

/-- Observable trace of the two `except` arms of `main` and its `finally`:
which handler logged, whether the exception was re-raised, that
`conn.close()` ran, the numbers on the final-stats line, and the process exit
status (0 for a normal return, 1 for an uncaught exception). -/
structure ShutdownTrace where
  stoppingLogged : Bool
  errorLogged : Bool
  reraised : Bool
  connClosed : Bool
  finalStats : ℕ × ℕ
  exitCode : ℕ
  deriving Repr, DecidableEq

/-- Shutdown path of `main`, given the loop state reached and how the loop
stopped.  `except KeyboardInterrupt` logs and swallows; `except Exception`
logs and re-raises (the interpreter then exits non-zero); `finally` closes
the connection and reports `total_products`, `total_sales`. -/
def mainShutdown (fin : LoopState) (e : LoopExit) : ShutdownTrace :=
  match e with
  | .interrupted =>
    { stoppingLogged := true, errorLogged := false, reraised := false,
      connClosed := true, finalStats := (fin.total_products, fin.total_sales),
      exitCode := 0 }
  | .failed =>
    { stoppingLogged := false, errorLogged := true, reraised := true,
      connClosed := true, finalStats := (fin.total_products, fin.total_sales),
      exitCode := 1 }

/-! ## Lemmas about the batch writers -/

/-- The product rows a batch starting at SERIAL value `nextId` creates. -/
def productRowsFrom (nextId : ℕ) : List Product → List ProductRow
  | [] => []
  | p :: ps =>
    { id := nextId, name := p.name, category := p.category,
      price := p.price, stock_quantity := p.stock_quantity } ::
    productRowsFrom (nextId + 1) ps

/-- The sale rows a batch starting at SERIAL value `nextId` creates. -/
def saleRowsFrom (nextId : ℕ) : List Sale → List SaleRow
  | [] => []
  | s :: ss =>
    { id := nextId, product_id := s.product_id,
      customer_name := s.customer_name, customer_email := s.customer_email,
      quantity := s.quantity, total_amount := s.total_amount } ::
    saleRowsFrom (nextId + 1) ss

theorem productRowsFrom_length (n : ℕ) (ps : List Product) :
    (productRowsFrom n ps).length = ps.length := by
  induction ps generalizing n with
  | nil => rfl
  | cons p ps ih => simp [productRowsFrom, ih]

theorem productRowsFrom_map_id (n : ℕ) (ps : List Product) :
    (productRowsFrom n ps).map (fun r => r.id) = List.range' n ps.length := by
  induction ps generalizing n with
  | nil => rfl
  | cons p ps ih => simp [productRowsFrom, ih, List.range'_succ]

theorem saleRowsFrom_length (n : ℕ) (ss : List Sale) :
    (saleRowsFrom n ss).length = ss.length := by
  induction ss generalizing n with
  | nil => rfl
  | cons s ss ih => simp [saleRowsFrom, ih]

theorem saleRowsFrom_fields {n : ℕ} {ss : List Sale} {r : SaleRow}
    (hr : r ∈ saleRowsFrom n ss) : ∃ s ∈ ss, r.product_id = s.product_id := by
  induction ss generalizing n with
  | nil => cases hr
  | cons s ss ih =>
    rcases List.mem_cons.mp hr with he | hr'
    · exact ⟨s, List.mem_cons_self .., by rw [he]⟩
    · obtain ⟨s', hs', heq⟩ := ih hr'
      exact ⟨s', List.mem_cons_of_mem _ hs', heq⟩

theorem insertProductRows_fst (st : DB) (ps : List Product) :
    (insertProductRows st ps).1 =
      { st with products := st.products ++ productRowsFrom st.nextProductId ps,
                nextProductId := st.nextProductId + ps.length } := by
  induction ps generalizing st with
  | nil => simp [insertProductRows, productRowsFrom]
  | cons p ps ih =>
    simp only [insertProductRows, productRowsFrom, ih]
    cases st
    simp [List.append_assoc]
    omega

theorem insertProductRows_snd (st : DB) (ps : List Product) :
    (insertProductRows st ps).2 = List.range' st.nextProductId ps.length := by
  induction ps generalizing st with
  | nil => rfl
  | cons p ps ih => simp [insertProductRows, ih, List.range'_succ]

theorem insertSaleRows_fst (st : DB) (ss : List Sale) :
    (insertSaleRows st ss).1 =
      { st with sales := st.sales ++ saleRowsFrom st.nextSaleId ss,
                nextSaleId := st.nextSaleId + ss.length } := by
  induction ss generalizing st with
  | nil => simp [insertSaleRows, saleRowsFrom]
  | cons s ss ih =>
    simp only [insertSaleRows, saleRowsFrom, ih]
    cases st
    simp [List.append_assoc]
    omega

theorem insertSaleRows_snd (st : DB) (ss : List Sale) :
    (insertSaleRows st ss).2 = List.range' st.nextSaleId ss.length := by
  induction ss generalizing st with
  | nil => rfl
  | cons s ss ih => simp [insertSaleRows, ih, List.range'_succ]

/-! ## Small shared helpers -/

theorem getD_mem_of_lt {l : List ℕ} {i : ℕ} (h : i < l.length) :
    l.getD i 0 ∈ l := by
  rw [List.getD_eq_getElem l 0 h]
  exact List.getElem_mem h

theorem createTableIfNotExists_self_mem (st : DB) (n : String) :
    n ∈ (createTableIfNotExists st n).tables := by
  unfold createTableIfNotExists
  split <;> simp_all

theorem createTableIfNotExists_mem_mono {st : DB} {m : String} (n : String)
    (h : m ∈ st.tables) : m ∈ (createTableIfNotExists st n).tables := by
  unfold createTableIfNotExists
  split <;> simp_all

theorem createTableIfNotExists_of_mem {st : DB} {n : String}
    (h : n ∈ st.tables) : createTableIfNotExists st n = st := by
  unfold createTableIfNotExists
  simp [h]

theorem createTableIfNotExists_replicaFull (st : DB) (n : String) :
    (createTableIfNotExists st n).replicaFull = st.replicaFull := by
  unfold createTableIfNotExists
  split <;> rfl

theorem setReplicaFull_tables (st : DB) (n : String) :
    (setReplicaFull st n).tables = st.tables := by
  unfold setReplicaFull
  split <;> rfl

theorem setReplicaFull_self_mem (st : DB) (n : String) :
    n ∈ (setReplicaFull st n).replicaFull := by
  unfold setReplicaFull
  split <;> simp_all

theorem setReplicaFull_mem_mono {st : DB} {m : String} (n : String)
    (h : m ∈ st.replicaFull) : m ∈ (setReplicaFull st n).replicaFull := by
  unfold setReplicaFull
  split <;> simp_all

theorem setReplicaFull_of_mem {st : DB} {n : String}
    (h : n ∈ st.replicaFull) : setReplicaFull st n = st := by
  unfold setReplicaFull
  simp [h]

theorem create_tables_products_mem (st : DB) :
    "products" ∈ (create_tables st).tables := by
  unfold create_tables
  rw [setReplicaFull_tables, setReplicaFull_tables]
  exact createTableIfNotExists_mem_mono _ (createTableIfNotExists_self_mem st _)

theorem create_tables_sales_mem (st : DB) :
    "sales" ∈ (create_tables st).tables := by
  unfold create_tables
  rw [setReplicaFull_tables, setReplicaFull_tables]
  exact createTableIfNotExists_self_mem _ _

theorem create_tables_products_replica (st : DB) :
    "products" ∈ (create_tables st).replicaFull := by
  unfold create_tables
  exact setReplicaFull_mem_mono _ (setReplicaFull_self_mem _ _)

theorem create_tables_sales_replica (st : DB) :
    "sales" ∈ (create_tables st).replicaFull := by
  unfold create_tables
  exact setReplicaFull_self_mem _ _

theorem createTableIfNotExists_nodup {st : DB} (n : String)
    (h : st.tables.Nodup) : (createTableIfNotExists st n).tables.Nodup := by
  unfold createTableIfNotExists
  split
  · exact h
  · simp_all [List.nodup_append]

theorem create_tables_tables_nodup {st : DB} (h : st.tables.Nodup) :
    (create_tables st).tables.Nodup := by
  unfold create_tables
  rw [setReplicaFull_tables, setReplicaFull_tables]
  exact createTableIfNotExists_nodup _ (createTableIfNotExists_nodup _ h)

theorem create_tables_of_provisioned {st : DB}
    (h1 : "products" ∈ st.tables) (h2 : "sales" ∈ st.tables)
    (h3 : "products" ∈ st.replicaFull) (h4 : "sales" ∈ st.replicaFull) :
    create_tables st = st := by
  unfold create_tables
  dsimp only
  rw [createTableIfNotExists_of_mem h1, createTableIfNotExists_of_mem h2,
      setReplicaFull_of_mem h3, setReplicaFull_of_mem h4]

theorem poolAfterRefresh_length_le (st : LoopState) (d : IterDraws) :
    (poolAfterRefresh st d).length ≤ 100 := by
  unfold poolAfterRefresh get_random_product_ids
  dsimp only
  split
  · exact List.length_take_le _ _
  · omega

theorem loopIter_pool (st : LoopState) (d : IterDraws) :
    (loopIter st d).product_ids = poolAfterRefresh st d := rfl

theorem runLoop_cons_pool_le (st : LoopState) (d : IterDraws)
    (ds : List IterDraws) : (runLoop st (d :: ds)).product_ids.length ≤ 100 := by
  induction ds generalizing st d with
  | nil => exact poolAfterRefresh_length_le st d
  | cons d2 ds ih => exact ih (loopIter st d) d2

/-! ## Claims C4, C7, C8, C9 -/

/-- C4: for every loop state and iteration draws, the ID Pool as it stands
immediately after the refresh check has size at most 100; consequently
after any positive number of completed loop iterations the pool held in
the state has size at most 100. -/
theorem C4_pool_bound :
    (∀ st d, (poolAfterRefresh st d).length ≤ 100) ∧
    (∀ st d ds, (runLoop st (d :: ds)).product_ids.length ≤ 100) :=
  ⟨poolAfterRefresh_length_le, fun st d ds => runLoop_cons_pool_le st d ds⟩

/-- C7: schema provisioning is idempotent.  Running `create_tables` twice
from any store whose table list is duplicate-free equals running it once
(so the second invocation changes nothing and, in this error-free model of
`IF NOT EXISTS`, raises no error), the resulting table list is still
duplicate-free, and both tables are present. -/
theorem C7_create_tables_idempotent (st : DB) (h : st.tables.Nodup) :
    create_tables (create_tables st) = create_tables st ∧
    (create_tables (create_tables st)).tables.Nodup ∧
    "products" ∈ (create_tables st).tables ∧
    "sales" ∈ (create_tables st).tables := by
  have hidem : create_tables (create_tables st) = create_tables st :=
    create_tables_of_provisioned (create_tables_products_mem st)
      (create_tables_sales_mem st) (create_tables_products_replica st)
      (create_tables_sales_replica st)
  refine ⟨hidem, ?_, create_tables_products_mem st, create_tables_sales_mem st⟩
  rw [hidem]
  exact create_tables_tables_nodup h

/-- Closed witness for C7 at the empty store. -/
theorem C7_create_tables_idempotent_witness :
    create_tables (create_tables emptyDB) = create_tables emptyDB ∧
    (create_tables (create_tables emptyDB)).tables.Nodup ∧
    "products" ∈ (create_tables emptyDB).tables ∧
    "sales" ∈ (create_tables emptyDB).tables :=
  C7_create_tables_idempotent emptyDB (by simp [emptyDB])

/-- C8: a user interrupt (`KeyboardInterrupt`) during the running loop is
not treated as an error: whatever state the loop reached, the shutdown
path closes the connection, reports the cumulative totals, does not
re-raise, and the process exits with status 0. -/
theorem C8_interrupt_clean_exit (fin : LoopState) :
    (mainShutdown fin .interrupted).exitCode = 0 ∧
    (mainShutdown fin .interrupted).connClosed = true ∧
    (mainShutdown fin .interrupted).finalStats =
      (fin.total_products, fin.total_sales) ∧
    (mainShutdown fin .interrupted).errorLogged = false ∧
    (mainShutdown fin .interrupted).reraised = false := by
  simp [mainShutdown]

/-- C9: any unexpected error during the steady-state loop is not retried:
the shutdown path re-raises it (so the process terminates with non-zero
status) and still closes the connection on that error path. -/
theorem C9_error_propagates (fin : LoopState) :
    (mainShutdown fin .failed).reraised = true ∧
    (mainShutdown fin .failed).exitCode ≠ 0 ∧
    (mainShutdown fin .failed).connClosed = true := by
  simp [mainShutdown]

/-! ## Claims C5 and C6: the Record Factory -/

/-- C6: every catalog item produced by `generate_product` from valid
random draws has price in `[5.99, 999.99]` with at most two fractional
digits, stock at most 500 (it is a natural number, hence at least 0), and
category in the fixed 7-element enumeration. -/
theorem C6_generate_product_ranges (d : ProductDraws) (hv : d.Valid) :
    (599/100 : ℚ) ≤ (generate_product d).price ∧
    (generate_product d).price ≤ 99999/100 ∧
    (∃ n : ℤ, (generate_product d).price = (n : ℚ) / 100) ∧
    (generate_product d).stock_quantity ≤ 500 ∧
    (generate_product d).category ∈ categories := by
  obtain ⟨hc, hlo, hhi, hs⟩ := hv
  obtain ⟨plo, phi⟩ := round2_bounds hlo hhi
  refine ⟨plo, phi, ⟨round (d.priceRaw * 100), rfl⟩, hs, ?_⟩
  show categories.getD d.categoryIdx "" ∈ categories
  rw [List.getD_eq_getElem categories "" hc]
  exact List.getElem_mem hc

/-- Closed witness for C6. -/
theorem C6_generate_product_ranges_witness :
    (599/100 : ℚ) ≤ (generate_product ⟨"w", 0, 6, 7⟩).price ∧
    (generate_product ⟨"w", 0, 6, 7⟩).price ≤ 99999/100 ∧
    (∃ n : ℤ, (generate_product ⟨"w", 0, 6, 7⟩).price = (n : ℚ) / 100) ∧
    (generate_product ⟨"w", 0, 6, 7⟩).stock_quantity ≤ 500 ∧
    (generate_product ⟨"w", 0, 6, 7⟩).category ∈ categories :=
  C6_generate_product_ranges ⟨"w", 0, 6, 7⟩
    (by refine ⟨by simp [categories], by norm_num, by norm_num, by norm_num⟩)

/-- C5: every transaction produced by `generate_sale` from valid draws has
quantity in `[1, 10]`; its total equals a unit price times the quantity,
rounded to two decimals, where the unit price is the independently drawn
`random.uniform(5.99, 999.99)` rounded to two decimals (no catalog price
is consulted); and its product reference is absent exactly when the
candidate pool is empty, otherwise an element of the pool. -/
theorem C5_generate_sale_shape (pool : List ℕ) (d : SaleDraws)
    (hv : d.Valid pool) :
    1 ≤ (generate_sale pool d).quantity ∧
    (generate_sale pool d).quantity ≤ 10 ∧
    (∃ up : ℚ, (599/100 : ℚ) ≤ up ∧ up ≤ 99999/100 ∧
      (∃ n : ℤ, up = (n : ℚ) / 100) ∧
      (generate_sale pool d).total_amount =
        round2 (up * (generate_sale pool d).quantity)) ∧
    ((generate_sale pool d).product_id = none ↔ pool = []) ∧
    (∀ pid, (generate_sale pool d).product_id = some pid → pid ∈ pool) := by
  obtain ⟨hq1, hq2, hlo, hhi, hidx⟩ := hv
  obtain ⟨plo, phi⟩ := round2_bounds hlo hhi
  refine ⟨hq1, hq2,
    ⟨round2 d.priceRaw, plo, phi, ⟨round (d.priceRaw * 100), rfl⟩, rfl⟩, ?_, ?_⟩
  · unfold generate_sale
    dsimp only
    split <;> simp_all
  · intro pid hpid
    unfold generate_sale at hpid
    dsimp only at hpid
    by_cases hp : pool = []
    · simp [hp] at hpid
    · rw [if_neg hp] at hpid
      have := getD_mem_of_lt (hidx hp)
      simp only [Option.some.injEq] at hpid
      rwa [hpid] at this

/-- Closed witness for C5 on the one-element pool. -/
theorem C5_generate_sale_shape_witness :
    1 ≤ (generate_sale [7] ⟨3, 6, 0, "n", "e"⟩).quantity ∧
    (generate_sale [7] ⟨3, 6, 0, "n", "e"⟩).quantity ≤ 10 ∧
    (∃ up : ℚ, (599/100 : ℚ) ≤ up ∧ up ≤ 99999/100 ∧
      (∃ n : ℤ, up = (n : ℚ) / 100) ∧
      (generate_sale [7] ⟨3, 6, 0, "n", "e"⟩).total_amount =
        round2 (up * (generate_sale [7] ⟨3, 6, 0, "n", "e"⟩).quantity)) ∧
    ((generate_sale [7] ⟨3, 6, 0, "n", "e"⟩).product_id = none ↔ ([7] : List ℕ) = []) ∧
    (∀ pid, (generate_sale [7] ⟨3, 6, 0, "n", "e"⟩).product_id = some pid →
      pid ∈ ([7] : List ℕ)) :=
  C5_generate_sale_shape [7] ⟨3, 6, 0, "n", "e"⟩
    ⟨by norm_num, by norm_num, by norm_num, by norm_num, by simp⟩

/-! ## Claims C2 and C10: the Connection Manager -/

/-- C2: against a store whose first 4 attempts raise `OperationalError`
and whose 5th succeeds, `get_db_connection` returns a session created on
attempt 5 after exactly 5 attempts and exactly 4 logged failures; against
a store that always raises `OperationalError`, it makes exactly 5
attempts, sleeps `retry_delay = 2` exactly 4 times (between consecutive
attempts, never after the last), logs the critical message and raises
without returning a session. -/
theorem C2_retry_bound (env1 env2 : ℕ → AttemptResult)
    (h1 : ∀ i, i < 4 → env1 i = .opError) (h2 : env1 4 = .ok)
    (h3 : ∀ i, i < 5 → env2 i = .opError) :
    (get_db_connection env1).outcome = .connected 5 ∧
    (get_db_connection env1).attemptsMade = 5 ∧
    (get_db_connection env1).failuresLogged = 4 ∧
    (get_db_connection env1).sleeps = [2, 2, 2, 2] ∧
    (get_db_connection env1).criticalLogged = false ∧
    (get_db_connection env2).attemptsMade = 5 ∧
    (get_db_connection env2).failuresLogged = 5 ∧
    (get_db_connection env2).sleeps = [2, 2, 2, 2] ∧
    (get_db_connection env2).outcome = .exhausted ∧
    (get_db_connection env2).criticalLogged = true := by
  have e10 := h1 0 (by norm_num)
  have e11 := h1 1 (by norm_num)
  have e12 := h1 2 (by norm_num)
  have e13 := h1 3 (by norm_num)
  have e20 := h3 0 (by norm_num)
  have e21 := h3 1 (by norm_num)
  have e22 := h3 2 (by norm_num)
  have e23 := h3 3 (by norm_num)
  have e24 := h3 4 (by norm_num)
  simp [get_db_connection, connectAux, max_retries, retry_delay,
        e10, e11, e12, e13, h2, e20, e21, e22, e23, e24]

/-- Closed witness for C2 with explicit refusal oracles. -/
theorem C2_retry_bound_witness :
    (get_db_connection fun i => if i < 4 then .opError else .ok).outcome
      = .connected 5 ∧
    (get_db_connection fun i => if i < 4 then .opError else .ok).attemptsMade = 5 ∧
    (get_db_connection fun i => if i < 4 then .opError else .ok).failuresLogged = 4 ∧
    (get_db_connection fun i => if i < 4 then .opError else .ok).sleeps = [2, 2, 2, 2] ∧
    (get_db_connection fun i => if i < 4 then .opError else .ok).criticalLogged = false ∧
    (get_db_connection fun _ => .opError).attemptsMade = 5 ∧
    (get_db_connection fun _ => .opError).failuresLogged = 5 ∧
    (get_db_connection fun _ => .opError).sleeps = [2, 2, 2, 2] ∧
    (get_db_connection fun _ => .opError).outcome = .exhausted ∧
    (get_db_connection fun _ => .opError).criticalLogged = true :=
  C2_retry_bound (fun i => if i < 4 then .opError else .ok) (fun _ => .opError)
    (by intro i hi; simp [hi]) (by norm_num) (fun i _ => rfl)

/-- C10: only `psycopg2.OperationalError` is caught by the retry loop.  If
the first exception of any other kind is raised on (0-based) attempt `i`,
`get_db_connection` propagates it from that attempt at once: exactly
`i + 1` connect calls, exactly the `i` sleeps owed to the earlier
operational failures (none added), exactly `i` logged failures, no
critical log, and the remaining attempt budget unused. -/
theorem C10_other_error_propagates (env : ℕ → AttemptResult) (i : ℕ)
    (hi : i < 5) (hbefore : ∀ j, j < i → env j = .opError)
    (hother : env i = .otherError) :
    (get_db_connection env).outcome = .propagated (i + 1) ∧
    (get_db_connection env).attemptsMade = i + 1 ∧
    (get_db_connection env).failuresLogged = i ∧
    (get_db_connection env).sleeps.length = i ∧
    (get_db_connection env).criticalLogged = false := by
  interval_cases i
  · simp [get_db_connection, connectAux, max_retries, hother]
  · simp [get_db_connection, connectAux, max_retries, retry_delay,
          hbefore 0 (by norm_num), hother]
  · simp [get_db_connection, connectAux, max_retries, retry_delay,
          hbefore 0 (by norm_num), hbefore 1 (by norm_num), hother]
  · simp [get_db_connection, connectAux, max_retries, retry_delay,
          hbefore 0 (by norm_num), hbefore 1 (by norm_num),
          hbefore 2 (by norm_num), hother]
  · simp [get_db_connection, connectAux, max_retries, retry_delay,
          hbefore 0 (by norm_num), hbefore 1 (by norm_num),
          hbefore 2 (by norm_num), hbefore 3 (by norm_num), hother]

/-- Closed witness for C10: an unexpected error on the second attempt. -/
theorem C10_other_error_propagates_witness :
    (get_db_connection fun i => if i < 1 then .opError else .otherError).outcome
      = .propagated 2 ∧
    (get_db_connection fun i => if i < 1 then .opError else .otherError).attemptsMade
      = 2 ∧
    (get_db_connection fun i => if i < 1 then .opError else .otherError).failuresLogged
      = 1 ∧
    (get_db_connection fun i => if i < 1 then .opError else .otherError).sleeps.length
      = 1 ∧
    (get_db_connection fun i => if i < 1 then .opError else .otherError).criticalLogged
      = false :=
  C10_other_error_propagates (fun i => if i < 1 then .opError else .otherError) 1
    (by norm_num) (by intro j hj; simp [hj]) (by norm_num)

/-! ## Claim C1: what the batch writers return -/

theorem saleRowsFrom_map_id (n : ℕ) (ss : List Sale) :
    (saleRowsFrom n ss).map (fun r => r.id) = List.range' n ss.length := by
  induction ss generalizing n with
  | nil => rfl
  | cons s ss ih => simp [saleRowsFrom, ih, List.range'_succ]

/-- C1 as stated is false: `insert_sales` computes the ids the store
assigned but has no `return` statement, so its Python value is `None`.
Concretely, inserting one sale into a freshly provisioned empty store
assigns the id list `[1]`, yet the call does not evaluate to it. -/
theorem C1_counterexample :
    (insertSaleRows (create_tables emptyDB)
       [generate_sale [] ⟨1, 6, 0, "n", "e"⟩]).2 = [1] ∧
    (insert_sales (create_tables emptyDB) [] [⟨1, 6, 0, "n", "e"⟩]).2
      ≠ some [1] := by
  constructor
  · rfl
  · simp [insert_sales]

/-- C1 (amended): `insert_products` does return the batch ids in insertion
order — its result is the id column of exactly the rows the batch
appended, one per input record.  `insert_sales` likewise appends one row
per record, and the store assigns those rows consecutive ids in insertion
order, but the function returns `None` instead of the id list. -/
theorem C1_amended_batch_ids (st : DB) (pdraws : List ProductDraws)
    (pool : List ℕ) (sdraws : List SaleDraws) :
    (insert_products st pdraws).2 =
      ((insert_products st pdraws).1.products.drop st.products.length).map
        (fun r => r.id) ∧
    (insert_products st pdraws).2.length = pdraws.length ∧
    (insert_products st pdraws).1.products.length
      = st.products.length + pdraws.length ∧
    (insert_sales st pool sdraws).1.sales.length
      = st.sales.length + sdraws.length ∧
    ((insert_sales st pool sdraws).1.sales.drop st.sales.length).map
        (fun r => r.id)
      = List.range' st.nextSaleId sdraws.length ∧
    (insert_sales st pool sdraws).2 = none := by
  unfold insert_products insert_sales
  dsimp only
  rw [insertProductRows_fst, insertProductRows_snd, insertSaleRows_fst]
  dsimp only
  rw [List.drop_left, List.drop_left]
  refine ⟨?_, ?_, ?_, ?_, ?_, rfl⟩
  · simp [productRowsFrom_map_id]
  · simp
  · simp [productRowsFrom_length]
  · simp [saleRowsFrom_length]
  · simp [saleRowsFrom_map_id]

/-! ## Claim C3: field lemmas about the loop -/

theorem createTableIfNotExists_products (st : DB) (n : String) :
    (createTableIfNotExists st n).products = st.products := by
  unfold createTableIfNotExists
  split <;> rfl

theorem setReplicaFull_products (st : DB) (n : String) :
    (setReplicaFull st n).products = st.products := by
  unfold setReplicaFull
  split <;> rfl

theorem createTableIfNotExists_sales (st : DB) (n : String) :
    (createTableIfNotExists st n).sales = st.sales := by
  unfold createTableIfNotExists
  split <;> rfl

theorem setReplicaFull_sales (st : DB) (n : String) :
    (setReplicaFull st n).sales = st.sales := by
  unfold setReplicaFull
  split <;> rfl

theorem create_tables_products (st : DB) :
    (create_tables st).products = st.products := by
  unfold create_tables
  dsimp only
  rw [setReplicaFull_products, setReplicaFull_products,
      createTableIfNotExists_products, createTableIfNotExists_products]

theorem create_tables_sales (st : DB) :
    (create_tables st).sales = st.sales := by
  unfold create_tables
  dsimp only
  rw [setReplicaFull_sales, setReplicaFull_sales,
      createTableIfNotExists_sales, createTableIfNotExists_sales]

theorem midDB_products (st : LoopState) (d : IterDraws) :
    (midDB st d).products =
      st.db.products
        ++ productRowsFrom st.db.nextProductId
             (d.productDraws.map generate_product) := by
  unfold midDB insert_products
  rw [insertProductRows_fst]

theorem midDB_sales (st : LoopState) (d : IterDraws) :
    (midDB st d).sales = st.db.sales := by
  unfold midDB insert_products
  rw [insertProductRows_fst]

theorem midDB_map_id (st : LoopState) (d : IterDraws) :
    (midDB st d).products.map (fun r => r.id)
      = st.db.products.map (fun r => r.id)
        ++ List.range' st.db.nextProductId d.productDraws.length := by
  rw [midDB_products]
  simp [productRowsFrom_map_id]

theorem newIds_eq (st : LoopState) (d : IterDraws) :
    newIds st d = List.range' st.db.nextProductId d.productDraws.length := by
  unfold newIds insert_products
  rw [insertProductRows_snd]
  simp

theorem loopIter_db_products (st : LoopState) (d : IterDraws) :
    (loopIter st d).db.products = (midDB st d).products := by
  show (insert_sales (midDB st d) (poolAfterRefresh st d) d.saleDraws).1.products
      = (midDB st d).products
  unfold insert_sales
  dsimp only
  rw [insertSaleRows_fst]

theorem loopIter_db_sales (st : LoopState) (d : IterDraws) :
    (loopIter st d).db.sales
      = st.db.sales
        ++ saleRowsFrom (midDB st d).nextSaleId
             (d.saleDraws.map (generate_sale (poolAfterRefresh st d))) := by
  show (insert_sales (midDB st d) (poolAfterRefresh st d) d.saleDraws).1.sales = _
  unfold insert_sales
  dsimp only
  rw [insertSaleRows_fst]
  dsimp only
  rw [midDB_sales]

theorem loopIter_products_length (st : LoopState) (d : IterDraws) :
    (loopIter st d).db.products.length
      = st.db.products.length + d.productDraws.length := by
  rw [loopIter_db_products, midDB_products]
  simp [productRowsFrom_length]

theorem loopIter_sales_length (st : LoopState) (d : IterDraws) :
    (loopIter st d).db.sales.length
      = st.db.sales.length + d.saleDraws.length := by
  rw [loopIter_db_sales]
  simp [saleRowsFrom_length]

theorem afterSeed_products_length (sd : List ProductDraws) :
    (afterSeed sd).db.products.length = sd.length := by
  unfold afterSeed insert_products
  dsimp only
  rw [insertProductRows_fst]
  simp [create_tables_products, emptyDB, productRowsFrom_length]

theorem afterSeed_sales (sd : List ProductDraws) :
    (afterSeed sd).db.sales = [] := by
  unfold afterSeed insert_products
  dsimp only
  rw [insertProductRows_fst]
  simp [create_tables_sales, emptyDB]

theorem afterSeed_pool (sd : List ProductDraws) :
    (afterSeed sd).product_ids
      = List.range' (create_tables emptyDB).nextProductId sd.length := by
  unfold afterSeed insert_products
  dsimp only
  rw [insertProductRows_snd]
  simp

theorem afterSeed_map_id (sd : List ProductDraws) :
    (afterSeed sd).db.products.map (fun r => r.id)
      = List.range' (create_tables emptyDB).nextProductId sd.length := by
  unfold afterSeed insert_products
  dsimp only
  rw [insertProductRows_fst]
  simp [create_tables_products, emptyDB, productRowsFrom_map_id]

/-! ## Claim C3: invariants and the end-to-end theorem -/

/-- The ID Pool only holds identifiers of rows present in `products`. -/
def PoolInv (st : LoopState) : Prop :=
  ∀ p ∈ st.product_ids, p ∈ st.db.products.map (fun r => r.id)

/-- Every stored transaction references, when present, an identifier of a
row present in `products`. -/
def SalesRefInv (db : DB) : Prop :=
  ∀ s ∈ db.sales, ∀ pid, s.product_id = some pid →
    pid ∈ db.products.map (fun r => r.id)

theorem generate_sale_product_id_mem {pool : List ℕ} {d : SaleDraws}
    (hv : pool ≠ [] → d.choiceIdx < pool.length) {pid : ℕ}
    (h : (generate_sale pool d).product_id = some pid) : pid ∈ pool := by
  unfold generate_sale at h
  dsimp only at h
  by_cases hp : pool = []
  · simp [hp] at h
  · rw [if_neg hp] at h
    have hm := getD_mem_of_lt (hv hp)
    simp only [Option.some.injEq] at h
    rwa [h] at hm

theorem poolAfterRefresh_subset (st : LoopState) (d : IterDraws)
    (hperm : PermValid (midDB st d) d.poolPerm) (hpool : PoolInv st) :
    ∀ p ∈ poolAfterRefresh st d,
      p ∈ (midDB st d).products.map (fun r => r.id) := by
  intro p hp
  unfold poolAfterRefresh get_random_product_ids at hp
  dsimp only at hp
  split at hp
  · exact hperm.mem_iff.mp (List.mem_of_mem_take hp)
  · rcases List.mem_append.mp hp with h | h
    · rw [midDB_map_id]
      exact List.mem_append_left _ (hpool p h)
    · rw [midDB_map_id]
      apply List.mem_append_right
      rw [newIds_eq] at h
      exact h

theorem loopIter_preserves (st : LoopState) (d : IterDraws) (hv : d.Valid st)
    (h1 : PoolInv st) (h2 : SalesRefInv st.db) :
    PoolInv (loopIter st d) ∧ SalesRefInv (loopIter st d).db := by
  obtain ⟨_, _, _, hperm, _, _, hsv⟩ := hv
  have hsub := poolAfterRefresh_subset st d hperm h1
  constructor
  · intro p hp
    rw [loopIter_db_products]
    exact hsub p hp
  · intro s hs pid hpid
    rw [loopIter_db_products]
    rw [loopIter_db_sales] at hs
    rcases List.mem_append.mp hs with hold | hnew
    · rw [midDB_map_id]
      exact List.mem_append_left _ (h2 s hold pid hpid)
    · obtain ⟨sl, hsl, heq⟩ := saleRowsFrom_fields hnew
      obtain ⟨dd, hdd, hgen⟩ := List.mem_map.mp hsl
      rw [heq, ← hgen] at hpid
      have hdv := hsv dd hdd
      exact hsub pid
        (generate_sale_product_id_mem (fun hne => hdv.2.2.2.2 hne) hpid)

theorem runLoop_preserves (ds : List IterDraws) (st : LoopState)
    (hv : ValidRun st ds) (h1 : PoolInv st) (h2 : SalesRefInv st.db) :
    PoolInv (runLoop st ds) ∧ SalesRefInv (runLoop st ds).db := by
  induction ds generalizing st with
  | nil => exact ⟨h1, h2⟩
  | cons d ds ih =>
    obtain ⟨hd, hds⟩ := hv
    obtain ⟨p1, p2⟩ := loopIter_preserves st d hd h1 h2
    exact ih (loopIter st d) hds p1 p2

theorem runLoop_counts (ds : List IterDraws) (st : LoopState)
    (hv : ValidRun st ds) :
    st.db.products.length + ds.length ≤ (runLoop st ds).db.products.length ∧
    (runLoop st ds).db.products.length
      ≤ st.db.products.length + 2 * ds.length ∧
    st.db.sales.length + ds.length ≤ (runLoop st ds).db.sales.length ∧
    (runLoop st ds).db.sales.length ≤ st.db.sales.length + 2 * ds.length := by
  induction ds generalizing st with
  | nil => simp [runLoop]
  | cons d ds ih =>
    obtain ⟨⟨hp1, hp2, _, _, hs1, hs2, _⟩, hds⟩ := hv
    have h := ih (loopIter st d) hds
    have hp := loopIter_products_length st d
    have hsl := loopIter_sales_length st d
    simp only [runLoop, List.foldl_cons] at h ⊢
    simp only [List.length_cons]
    omega

theorem validRun_append_left {st : LoopState} {ds1 ds2 : List IterDraws}
    (h : ValidRun st (ds1 ++ ds2)) : ValidRun st ds1 := by
  induction ds1 generalizing st with
  | nil => trivial
  | cons d ds ih =>
    obtain ⟨h1, h2⟩ := h
    exact ⟨h1, ih h2⟩

theorem afterSeed_poolInv (sd : List ProductDraws) : PoolInv (afterSeed sd) := by
  intro p hp
  rw [afterSeed_map_id]
  rw [afterSeed_pool] at hp
  exact hp

theorem afterSeed_salesRefInv (sd : List ProductDraws) :
    SalesRefInv (afterSeed sd).db := by
  intro s hs
  rw [afterSeed_sales] at hs
  cases hs

/-- C3: from the empty store, after `create_tables` and seeding there are
exactly 20 catalog items and no transactions; and along any valid run,
after every prefix of `N` completed iterations the catalog count lies in
`[20 + N, 20 + 2N]`, the transaction count lies in `[N, 2N]`, and every
stored transaction whose product reference is present references an
identifier of a catalog row already stored at that point — in particular
the row existed at or before the iteration that inserted the
transaction. -/
theorem C3_end_to_end (sd : List ProductDraws) (hsd : sd.length = 20)
    (ds : List IterDraws) (hv : ValidRun (afterSeed sd) ds) :
    (afterSeed sd).db.products.length = 20 ∧
    (afterSeed sd).db.sales.length = 0 ∧
    ∀ ds1 ds2, ds = ds1 ++ ds2 →
      20 + ds1.length ≤ (runLoop (afterSeed sd) ds1).db.products.length ∧
      (runLoop (afterSeed sd) ds1).db.products.length ≤ 20 + 2 * ds1.length ∧
      ds1.length ≤ (runLoop (afterSeed sd) ds1).db.sales.length ∧
      (runLoop (afterSeed sd) ds1).db.sales.length ≤ 2 * ds1.length ∧
      ∀ s ∈ (runLoop (afterSeed sd) ds1).db.sales, ∀ pid,
        s.product_id = some pid →
        pid ∈ (runLoop (afterSeed sd) ds1).db.products.map (fun r => r.id) := by
  have hp20 : (afterSeed sd).db.products.length = 20 := by
    rw [afterSeed_products_length, hsd]
  have hs0 : (afterSeed sd).db.sales.length = 0 := by
    rw [afterSeed_sales]
    rfl
  refine ⟨hp20, hs0, ?_⟩
  intro ds1 ds2 hsplit
  have hv1 : ValidRun (afterSeed sd) ds1 := validRun_append_left (hsplit ▸ hv)
  have hc := runLoop_counts ds1 (afterSeed sd) hv1
  have hinv := runLoop_preserves ds1 (afterSeed sd) hv1
    (afterSeed_poolInv sd) (afterSeed_salesRefInv sd)
  rw [hp20, hs0] at hc
  refine ⟨by omega, by omega, by omega, by omega, hinv.2⟩

/-- Closed witness for C3 on the run of zero iterations after 20 default
seed draws. -/
theorem C3_end_to_end_witness :
    (afterSeed (List.replicate 20 ⟨"w", 0, 6, 7⟩)).db.products.length = 20 ∧
    (afterSeed (List.replicate 20 ⟨"w", 0, 6, 7⟩)).db.sales.length = 0 ∧
    ∀ ds1 ds2, ([] : List IterDraws) = ds1 ++ ds2 →
      20 + ds1.length
        ≤ (runLoop (afterSeed (List.replicate 20 ⟨"w", 0, 6, 7⟩)) ds1).db.products.length ∧
      (runLoop (afterSeed (List.replicate 20 ⟨"w", 0, 6, 7⟩)) ds1).db.products.length
        ≤ 20 + 2 * ds1.length ∧
      ds1.length
        ≤ (runLoop (afterSeed (List.replicate 20 ⟨"w", 0, 6, 7⟩)) ds1).db.sales.length ∧
      (runLoop (afterSeed (List.replicate 20 ⟨"w", 0, 6, 7⟩)) ds1).db.sales.length
        ≤ 2 * ds1.length ∧
      ∀ s ∈ (runLoop (afterSeed (List.replicate 20 ⟨"w", 0, 6, 7⟩)) ds1).db.sales,
        ∀ pid, s.product_id = some pid →
        pid ∈ (runLoop (afterSeed (List.replicate 20 ⟨"w", 0, 6, 7⟩)) ds1).db.products.map
          (fun r => r.id) :=
  C3_end_to_end (List.replicate 20 ⟨"w", 0, 6, 7⟩) (by simp) [] trivial

end DebeziumDemo
